import Mathlib

/-!
Verification of the LanceDB REST API server (src/scripts/lancedb-server.py).

The development shallowly embeds the server's core: the value normalizer
`_to_serializable`, the row materializer `_rows_to_dicts`, the table registry
and document operations, and the search/query executors.  The storage engine
(LanceDB itself) and the HTTP framework are external collaborators; where a
handler's behaviour depends on them, the engine is modelled from the spec and
marked as such in the doc comment.
-/

set_option maxHeartbeats 1000000

namespace LanceDBServer

/-- A Python numeric scalar: either an int or a float (floats are modelled as
rationals; no claim depends on floating-point rounding). -/
inductive PyNum where
  | int : Int → PyNum
  | float : Rat → PyNum

/-- A possibly multi-dimensional numpy array (`np.ndarray`): leaves are numeric
scalars, inner nodes are ordered lists of sub-arrays. -/
inductive NDTree where
  | num : PyNum → NDTree
  | arr : List NDTree → NDTree

/-- A runtime value as seen by `_to_serializable`: plain Python values
(int, float, bool, str, list, dict), numpy wrapper scalars (`np.integer`,
`np.floating`, `np.bool_`), numpy arrays, Python `bytes`, pyarrow arrays and
chunked arrays, and a catch-all constructor for any other object (the fallback
arm of the dispatcher).  `paArray`/`paChunkedArray` carry the list of Python
values their `to_pylist()` produces. -/
inductive Value where
  | pyInt : Int → Value
  | pyFloat : Rat → Value
  | pyBool : Bool → Value
  | pyStr : String → Value
  | pyList : List Value → Value
  | pyDict : List (String × Value) → Value
  | npInt : Int → Value
  | npFloat : Rat → Value
  | npBool : Bool → Value
  | npArray : NDTree → Value
  | bytes : List Nat → Value
  | paArray : List Value → Value
  | paChunkedArray : List Value → Value
  | other : String → Value

/-- A document (row): an ordered field-name → value mapping. -/
def Document := List (String × Value)

/-- Decode one UTF-8 sequence: given the lead byte and the remaining bytes,
return the decoded code point and how many continuation bytes were consumed,
or `none` if the bytes at this position are not a valid UTF-8 sequence
(overlong encodings, surrogates and out-of-range values rejected). -/
def utf8DecodeOne (b : Nat) (rest : List Nat) : Option (Nat × Nat) :=
  if b < 0x80 then
    some (b, 0)
  else if 0xC2 ≤ b ∧ b ≤ 0xDF then
    match rest with
    | b1 :: _ =>
      if 0x80 ≤ b1 ∧ b1 ≤ 0xBF then some ((b - 0xC0) * 64 + (b1 - 0x80), 1)
      else none
    | [] => none
  else if 0xE0 ≤ b ∧ b ≤ 0xEF then
    match rest with
    | b1 :: b2 :: _ =>
      let lo1 := if b = 0xE0 then 0xA0 else 0x80
      let hi1 := if b = 0xED then 0x9F else 0xBF
      if (lo1 ≤ b1 ∧ b1 ≤ hi1) ∧ (0x80 ≤ b2 ∧ b2 ≤ 0xBF) then
        some ((b - 0xE0) * 4096 + (b1 - 0x80) * 64 + (b2 - 0x80), 2)
      else none
    | _ => none
  else if 0xF0 ≤ b ∧ b ≤ 0xF4 then
    match rest with
    | b1 :: b2 :: b3 :: _ =>
      let lo1 := if b = 0xF0 then 0x90 else 0x80
      let hi1 := if b = 0xF4 then 0x8F else 0xBF
      if (lo1 ≤ b1 ∧ b1 ≤ hi1) ∧ (0x80 ≤ b2 ∧ b2 ≤ 0xBF) ∧ (0x80 ≤ b3 ∧ b3 ≤ 0xBF) then
        some ((b - 0xF0) * 262144 + (b1 - 0x80) * 4096 + (b2 - 0x80) * 64 + (b3 - 0x80), 3)
      else none
    | _ => none
  else none

/-- The Unicode replacement character U+FFFD. -/
def replacementChar : Char := Char.ofNat 0xFFFD

/-- Lossy UTF-8 decoding, modelling Python's
`bytes.decode("utf-8", errors="replace")`: a total function; every position
at which no valid UTF-8 sequence starts contributes a U+FFFD replacement
character and decoding continues at the next byte. -/
def decodeUtf8Replace : List Nat → List Char
  | [] => []
  | b :: rest =>
    match utf8DecodeOne b rest with
    | some (cp, k) => Char.ofNat cp :: decodeUtf8Replace (rest.drop k)
    | none => replacementChar :: decodeUtf8Replace rest
termination_by l => l.length
decreasing_by
  · simp [List.length_drop]; omega
  · simp

/-- Strict UTF-8 decoding (Python's default `errors="strict"` mode): fails on
the first invalid sequence. -/
def decodeUtf8Strict : List Nat → Option (List Char)
  | [] => some []
  | b :: rest =>
    match utf8DecodeOne b rest with
    | some (cp, k) => (decodeUtf8Strict (rest.drop k)).map (fun cs => Char.ofNat cp :: cs)
    | none => none
termination_by l => l.length
decreasing_by
  · simp [List.length_drop]; omega

mutual

/-- Models `np.ndarray.tolist()` (reached by `_to_serializable` at line 62):
a numeric leaf becomes a plain Python number, a nested array becomes a plain
list of the recursively converted sub-arrays. -/
def NDTree.tolist : NDTree → Value
  | .num (.int i) => Value.pyInt i
  | .num (.float q) => Value.pyFloat q
  | .arr xs => Value.pyList (NDTree.tolistList xs)

def NDTree.tolistList : List NDTree → List Value
  | [] => []
  | t :: ts => NDTree.tolist t :: NDTree.tolistList ts

end

mutual

/-- The value normalizer `_to_serializable` (lines 55–73): type-based dispatch
converting numpy/pyarrow wrapper values into plain JSON-compatible Python
values, recursing through lists and dicts, with a fallback arm returning any
other value unchanged.  The Python function dispatches on `isinstance` over
pairwise-disjoint runtime types, so the arm order is immaterial. -/
def toSerializable : Value → Value
  | .npInt i => Value.pyInt i
  | .npFloat q => Value.pyFloat q
  | .npArray t => NDTree.tolist t
  | .npBool b => Value.pyBool b
  | .bytes bs => Value.pyStr (String.mk (decodeUtf8Replace bs))
  | .paArray xs => Value.pyList xs
  | .paChunkedArray xs => Value.pyList xs
  | .pyList xs => Value.pyList (toSerializableList xs)
  | .pyDict kvs => Value.pyDict (toSerializableKVs kvs)
  | .pyInt i => Value.pyInt i
  | .pyFloat q => Value.pyFloat q
  | .pyBool b => Value.pyBool b
  | .pyStr s => Value.pyStr s
  | .other s => Value.other s

def toSerializableList : List Value → List Value
  | [] => []
  | v :: vs => toSerializable v :: toSerializableList vs

def toSerializableKVs : List (String × Value) → List (String × Value)
  | [] => []
  | (k, v) :: kvs => (k, toSerializable v) :: toSerializableKVs kvs

end

/-- The row materializer `_rows_to_dicts` (lines 76–90) on the row-sequence
shape: each row dict is passed through `_to_serializable` (hitting its dict
arm).  The columnar raw shapes (`to_pandas`/`to_pydict`) produce the same
list-of-row-dicts before the per-row normalization and are not separately
modelled; no claim distinguishes them. -/
def rowsToDicts (rows : List Document) : List Document :=
  rows.map (fun r => toSerializableKVs r)

/-- A substring test on char lists: does `n` occur contiguously in `h`?
Models Python's `in` operator on strings. -/
def leadsWith : List Char → List Char → Bool
  | [], _ => true
  | _ :: _, [] => false
  | a :: as, b :: bs => a == b && leadsWith as bs

/-- Does `n` occur contiguously somewhere in `h`? -/
def hasSub (n : List Char) : List Char → Bool
  | [] => leadsWith n []
  | b :: t => leadsWith n (b :: t) || hasSub n t

/-- Models `needle in hay.lower()` (line 156): ASCII-wise lowercasing of the
haystack followed by a substring test. -/
def lowerContains (needle hay : String) : Bool :=
  hasSub needle.toList (hay.toList.map Char.toLower)

/-- An open LanceDB table: the ordered rows it stores. -/
structure Table where
  rows : List Document

/-- The storage root: the mapping from table name to table, owned by the
LanceDB connection `db`. -/
structure DB where
  tables : List (String × Table)

/-- Look up a table by name. -/
def DB.find (db : DB) (name : String) : Option Table :=
  (db.tables.find? (fun p => p.1 == name)).map (fun p => p.2)

/-- Replace the rows of table `name`. -/
def DB.set (db : DB) (name : String) (t : Table) : DB :=
  ⟨db.tables.map (fun p => if p.1 == name then (p.1, t) else p)⟩

/-- Remove table `name`. -/
def DB.remove (db : DB) (name : String) : DB :=
  ⟨db.tables.filter (fun p => !(p.1 == name))⟩

/-- The engine-level query a handler builds before executing it: the LanceDB
query-builder state after `table.search(...)`, `.metric(...)`, `.where(...)`
and `.limit(...)` calls. -/
structure EngineQuery where
  vector : Option (List Rat)
  vectorColumn : Option String
  metric : Option String
  whereFilter : Option String
  queryLimit : Option Int

/-- One call issued to the storage engine; handlers record the calls they
make so that short-circuit claims (engine never reached) are statable. -/
inductive EngineCall where
  | openTable : String → EngineCall
  | createTable : String → List Document → EngineCall
  | dropTable : String → EngineCall
  | countRows : String → EngineCall
  | addRows : String → List Document → EngineCall
  | deleteRows : String → String → EngineCall
  | runQuery : String → EngineQuery → EngineCall

/-- An HTTP handler result: a success payload, or an `HTTPException` with a
status code and a detail message. -/
inductive HTTPResult (α : Type) where
  | ok : α → HTTPResult α
  | error : Nat → String → HTTPResult α

/-- The status code of a result, if it is an error. -/
def HTTPResult.errStatus {α : Type} : HTTPResult α → Option Nat
  | .ok _ => none
  | .error s _ => some s

/-- Everything observable about one handler invocation: the HTTP result, the
storage state afterwards, and the engine calls issued. -/
structure Outcome (α : Type) where
  result : HTTPResult α
  db : DB
  calls : List EngineCall

/-- Modelled from the spec: `db.open_table(name)` of the external storage
engine fails exactly when no table with that name exists (§4.1 `openTable`
fails with `NotFound` if no such table exists). -/
def engineOpenTable (db : DB) (name : String) : Except String Table :=
  match db.find name with
  | some t => Except.ok t
  | none => Except.error ("Table " ++ name ++ " was not found")

/-- Modelled from the spec: `db.create_table(name, data)` of the external
storage engine fails when a table with that name already exists (§4.1), the
error message naming the collision the way the handler's classifier at line
156 expects (`"already exists" in str(e).lower()`). -/
def engineCreateTable (db : DB) (name : String) (data : List Document) :
    Except String DB :=
  match db.find name with
  | some _ => Except.error ("Table " ++ name ++ " already exists")
  | none => Except.ok ⟨db.tables ++ [(name, ⟨data⟩)]⟩

/-- Modelled from the spec: `db.drop_table(name)` of the external storage
engine fails when the table does not exist; `fault` injects an additional
unclassifiable engine failure (§7: engine failures the core cannot classify)
with its message. -/
def engineDropTable (db : DB) (name : String) (fault : Option String) :
    Except String DB :=
  match fault with
  | some msg => Except.error msg
  | none =>
    match db.find name with
    | some _ => Except.ok (db.remove name)
    | none => Except.error ("Table " ++ name ++ " was not found")

/-- Modelled from the spec: the engine executes a built query — the optional
filter predicate (its text semantics `sem` is an engine black box) and the
limit are applied; result ordering is delegated to the engine (§4.3) and
modelled as storage order. -/
def engineRunQuery (sem : String → Document → Bool) (t : Table)
    (q : EngineQuery) : List Document :=
  let base :=
    match q.whereFilter with
    | some f => t.rows.filter (fun d => sem f d)
    | none => t.rows
  match q.queryLimit with
  | some n => base.take n.toNat
  | none => base

/-- Pydantic model `TableCreateRequest` (line 105): the parsed body of a create-table call. -/
structure TableCreateRequest where
  data : List Document

/-- Pydantic model `AddDocumentsRequest` (line 109). -/
structure AddDocumentsRequest where
  data : List Document

/-- Pydantic model `DeleteRequest` (line 113): `filter` is a required string field. -/
structure DeleteRequest where
  filter : String

/-- Pydantic model `SearchRequest` (lines 117–121) after validation, defaults applied. -/
structure SearchRequest where
  vector : List Rat
  limit : Int
  distance_type : String
  filter : Option String

/-- Pydantic model `QueryRequest` (lines 124–126) after validation, defaults applied. -/
structure QueryRequest where
  filter : Option String
  limit : Int

/-- The raw fields of a search body as they arrive on the wire: `none` means
the field was omitted by the client. -/
structure SearchBody where
  vector : List Rat
  limit : Option Int
  distance_type : Option String
  filter : Option String

/-- The raw fields of a query body as they arrive on the wire. -/
structure QueryBody where
  filter : Option String
  limit : Option Int

/-- Pydantic validation of a `SearchRequest`: omitted fields take their
declared defaults `limit = 10`, `distance_type = "cosine"`, `filter = None`
(lines 117–121). -/
def mkSearchRequest (b : SearchBody) : SearchRequest :=
  { vector := b.vector
    limit := b.limit.getD 10
    distance_type := b.distance_type.getD "cosine"
    filter := b.filter }

/-- Pydantic validation of a `QueryRequest`: omitted `limit` defaults to 100
(lines 124–126). -/
def mkQueryRequest (b : QueryBody) : QueryRequest :=
  { filter := b.filter
    limit := b.limit.getD 100 }

/-- Python truthiness of an optional string (`if body.filter:`): `None` and
the empty string are falsy. -/
def optStrTruthy : Option String → Bool
  | none => false
  | some s => !(s == "")

/-- The helper `_get_table` (lines 93–98): open the table via the engine, turning any
engine failure into a 404 `HTTPException`. -/
def getTable (db : DB) (name : String) : HTTPResult Table :=
  match engineOpenTable db name with
  | Except.ok t => HTTPResult.ok t
  | Except.error _ =>
    HTTPResult.error 404 ("Table " ++ name ++ " not found")

/-- Response body of a successful create-table call. -/
structure CreateResponse where
  table : String
  rows : Nat

/-- Response body of a successful drop-table call. -/
structure DropResponse where
  deleted : String

/-- Response body of a successful add-documents call. -/
structure AddResponse where
  added : Nat

/-- Response body of a successful delete-documents call. -/
structure DeleteResponse where
  deleted : Bool

/-- Response body of a successful search or query call. -/
structure SearchResponse where
  results : List Document

/-- The `create_table` handler (lines 148–158): reject an empty data list
with 400 before touching the engine; otherwise call the engine and classify
a failure as 409 when its message contains "already exists", 500 with the
message passed through otherwise. -/
def create_table (db : DB) (name : String) (body : TableCreateRequest) :
    Outcome CreateResponse :=
  if body.data.isEmpty then
    ⟨HTTPResult.error 400 "Data array must not be empty", db, []⟩
  else
    match engineCreateTable db name body.data with
    | Except.ok db' =>
      ⟨HTTPResult.ok ⟨name, body.data.length⟩, db',
        [EngineCall.createTable name body.data]⟩
    | Except.error e =>
      if lowerContains "already exists" e then
        ⟨HTTPResult.error 409 ("Table " ++ name ++ " already exists"), db,
          [EngineCall.createTable name body.data]⟩
      else
        ⟨HTTPResult.error 500 e, db, [EngineCall.createTable name body.data]⟩

/-- The `drop_table` handler (lines 161–167): call the engine's drop and map
every failure, of any kind, to a 404 with a generic not-found detail. -/
def drop_table (db : DB) (name : String) (fault : Option String) :
    Outcome DropResponse :=
  match engineDropTable db name fault with
  | Except.ok db' =>
    ⟨HTTPResult.ok ⟨name⟩, db', [EngineCall.dropTable name]⟩
  | Except.error _ =>
    ⟨HTTPResult.error 404 ("Table " ++ name ++ " not found"), db,
      [EngineCall.dropTable name]⟩

/-- The `count_rows` handler (lines 174–181): resolve the table (404 if
absent) and return the row count.  The fast-count/full-scan fallback both
yield the exact count and are not distinguished. -/
def count_rows (db : DB) (name : String) : Outcome Nat :=
  match getTable db name with
  | HTTPResult.error s d => ⟨HTTPResult.error s d, db, [EngineCall.openTable name]⟩
  | HTTPResult.ok t =>
    ⟨HTTPResult.ok t.rows.length, db,
      [EngineCall.openTable name, EngineCall.countRows name]⟩

/-- The `add_documents` handler (lines 184–190): resolve the table first
(404 if absent), then reject an empty data list with 400 before calling the
engine's add. -/
def add_documents (db : DB) (name : String) (body : AddDocumentsRequest) :
    Outcome AddResponse :=
  match getTable db name with
  | HTTPResult.error s d => ⟨HTTPResult.error s d, db, [EngineCall.openTable name]⟩
  | HTTPResult.ok t =>
    if body.data.isEmpty then
      ⟨HTTPResult.error 400 "Data array must not be empty", db,
        [EngineCall.openTable name]⟩
    else
      ⟨HTTPResult.ok ⟨body.data.length⟩,
        db.set name ⟨t.rows ++ body.data⟩,
        [EngineCall.openTable name, EngineCall.addRows name body.data]⟩

/-- The `delete_documents` handler (lines 193–199): resolve the table first
(404 if absent), then reject a falsy filter with 400, else delete all rows
matching the engine-evaluated predicate `sem`. -/
def delete_documents (sem : String → Document → Bool) (db : DB)
    (name : String) (body : DeleteRequest) : Outcome DeleteResponse :=
  match getTable db name with
  | HTTPResult.error s d => ⟨HTTPResult.error s d, db, [EngineCall.openTable name]⟩
  | HTTPResult.ok t =>
    if body.filter = "" then
      ⟨HTTPResult.error 400 "Filter expression is required", db,
        [EngineCall.openTable name]⟩
    else
      ⟨HTTPResult.ok ⟨true⟩,
        db.set name ⟨t.rows.filter (fun d => !(sem body.filter d))⟩,
        [EngineCall.openTable name, EngineCall.deleteRows name body.filter]⟩

/-- The query built by `vector_search` (lines 218–226): start from
`table.search(body.vector, vector_column_name="vector")`, add the metric
when `body.distance_type` is truthy, add the filter when `body.filter` is
truthy, then always apply `.limit(body.limit)`. -/
def buildSearchQuery (body : SearchRequest) : EngineQuery :=
  let q0 : EngineQuery :=
    { vector := some body.vector, vectorColumn := some "vector"
      metric := none, whereFilter := none, queryLimit := none }
  let q1 := if body.distance_type = "" then q0
    else { q0 with metric := some body.distance_type }
  let q2 := if optStrTruthy body.filter then { q1 with whereFilter := body.filter }
    else q1
  { q2 with queryLimit := some body.limit }

/-- The query built by `query_table` (lines 244–247): `table.search()` with
no vector, with the filter when truthy, and always `.limit(body.limit)` on
both branches. -/
def buildScanQuery (body : QueryRequest) : EngineQuery :=
  if optStrTruthy body.filter then
    { vector := none, vectorColumn := none, metric := none
      whereFilter := body.filter, queryLimit := some body.limit }
  else
    { vector := none, vectorColumn := none, metric := none
      whereFilter := none, queryLimit := some body.limit }

/-- The `vector_search` handler (lines 206–229): resolve the table, count
its rows, short-circuit to `{results: []}` when the count is zero, otherwise
build the engine query, execute it and materialize the rows. -/
def vector_search (sem : String → Document → Bool) (db : DB) (name : String)
    (body : SearchRequest) : Outcome SearchResponse :=
  match getTable db name with
  | HTTPResult.error s d => ⟨HTTPResult.error s d, db, [EngineCall.openTable name]⟩
  | HTTPResult.ok t =>
    if t.rows.length = 0 then
      ⟨HTTPResult.ok ⟨[]⟩, db,
        [EngineCall.openTable name, EngineCall.countRows name]⟩
    else
      ⟨HTTPResult.ok ⟨rowsToDicts (engineRunQuery sem t (buildSearchQuery body))⟩, db,
        [EngineCall.openTable name, EngineCall.countRows name,
          EngineCall.runQuery name (buildSearchQuery body)]⟩

/-- The `query_table` handler (lines 232–250): resolve the table, count its
rows, short-circuit to `{results: []}` when the count is zero, otherwise run
a plain scan (`table.search()` with no vector) with the filter when truthy
and always the limit, and materialize the rows. -/
def query_table (sem : String → Document → Bool) (db : DB) (name : String)
    (body : QueryRequest) : Outcome SearchResponse :=
  match getTable db name with
  | HTTPResult.error s d => ⟨HTTPResult.error s d, db, [EngineCall.openTable name]⟩
  | HTTPResult.ok t =>
    if t.rows.length = 0 then
      ⟨HTTPResult.ok ⟨[]⟩, db,
        [EngineCall.openTable name, EngineCall.countRows name]⟩
    else
      ⟨HTTPResult.ok ⟨rowsToDicts (engineRunQuery sem t (buildScanQuery body))⟩, db,
        [EngineCall.openTable name, EngineCall.countRows name,
          EngineCall.runQuery name (buildScanQuery body)]⟩

/-- The canonical (already JSON-compatible) values of the spec: plain
numbers, strings, booleans, and lists/dicts of canonical values. -/
inductive Canonical : Value → Prop where
  | int (i : Int) : Canonical (Value.pyInt i)
  | float (q : Rat) : Canonical (Value.pyFloat q)
  | bool (b : Bool) : Canonical (Value.pyBool b)
  | str (s : String) : Canonical (Value.pyStr s)
  | list (xs : List Value) : (∀ v ∈ xs, Canonical v) → Canonical (Value.pyList xs)
  | dict (kvs : List (String × Value)) : (∀ kv ∈ kvs, Canonical kv.2) →
      Canonical (Value.pyDict kvs)

/-- The plain Python value of a numeric scalar. -/
def PyNum.toValue : PyNum → Value
  | .int i => Value.pyInt i
  | .float q => Value.pyFloat q

/-- A concrete filter semantics (matches nothing), used to instantiate the
engine-black-box parameter in witnesses. -/
def semNone : String → Document → Bool := fun _ _ => false

/-- A one-table storage root whose table `t` is empty. -/
def dbEmptyTable : DB := ⟨[("t", ⟨[]⟩)]⟩

/-- A storage root with no tables. -/
def dbNoTables : DB := ⟨[]⟩

/-- A one-table storage root whose table `t` has one row. -/
def dbOneRow : DB := ⟨[("t", ⟨[[("text", Value.pyStr "hello")]]⟩)]⟩

/- ------------------------------------------------------------------ -/
/- Helper lemmas                                                       -/
/- ------------------------------------------------------------------ -/

theorem getTable_found {db : DB} {name : String} {t : Table}
    (h : db.find name = some t) : getTable db name = HTTPResult.ok t := by
  simp [getTable, engineOpenTable, h]

theorem getTable_missing {db : DB} {name : String}
    (h : db.find name = none) :
    getTable db name = HTTPResult.error 404 ("Table " ++ name ++ " not found") := by
  simp [getTable, engineOpenTable, h]

/- ------------------------------------------------------------------ -/
/- Claim theorems                                                      -/
/- ------------------------------------------------------------------ -/

/-- Claim C1: for every table with zero rows, both the vector-search
handler and the filtered-query handler short-circuit and return
`{results: []}`, whatever well-formed vector/filter the request carries,
and no search/scan query is issued to the storage engine. -/
theorem emptyTable_search_query_short_circuit
    (sem : String → Document → Bool) (db : DB) (name : String) (t : Table)
    (sbody : SearchRequest) (qbody : QueryRequest)
    (h : db.find name = some t) (hrows : t.rows = []) :
    (vector_search sem db name sbody).result = HTTPResult.ok ⟨[]⟩ ∧
    (∀ q, EngineCall.runQuery name q ∉ (vector_search sem db name sbody).calls) ∧
    (query_table sem db name qbody).result = HTTPResult.ok ⟨[]⟩ ∧
    (∀ q, EngineCall.runQuery name q ∉ (query_table sem db name qbody).calls) := by
  simp [vector_search, query_table, getTable_found h, hrows]

/-- Witness for C1 at a concrete empty table. -/
theorem emptyTable_search_query_short_circuit_app :
    dbEmptyTable.find "t" = some ⟨[]⟩ ∧ (Table.mk []).rows = [] ∧
    ((vector_search semNone dbEmptyTable "t" ⟨[1, 2], 10, "cosine", none⟩).result =
        HTTPResult.ok ⟨[]⟩ ∧
      (∀ q, EngineCall.runQuery "t" q ∉
        (vector_search semNone dbEmptyTable "t" ⟨[1, 2], 10, "cosine", none⟩).calls) ∧
      (query_table semNone dbEmptyTable "t" ⟨some "x = 1", 100⟩).result =
        HTTPResult.ok ⟨[]⟩ ∧
      (∀ q, EngineCall.runQuery "t" q ∉
        (query_table semNone dbEmptyTable "t" ⟨some "x = 1", 100⟩).calls)) :=
  ⟨rfl, rfl,
    emptyTable_search_query_short_circuit semNone dbEmptyTable "t" ⟨[]⟩
      ⟨[1, 2], 10, "cosine", none⟩ ⟨some "x = 1", 100⟩ rfl rfl⟩

/-- Claim C10: in `add_documents` and `delete_documents` the table is
resolved before the payload is validated, so a request naming a missing
table gets 404 whatever the body holds — even an empty data list or an
empty filter. -/
theorem missing_table_404_precedes_validation
    (sem : String → Document → Bool) (db : DB) (name : String)
    (abody : AddDocumentsRequest) (dbody : DeleteRequest)
    (h : db.find name = none) :
    (add_documents db name abody).result =
      HTTPResult.error 404 ("Table " ++ name ++ " not found") ∧
    (delete_documents sem db name dbody).result =
      HTTPResult.error 404 ("Table " ++ name ++ " not found") := by
  simp [add_documents, delete_documents, getTable_missing h]

/-- Witness for C10: missing table, empty data list and empty filter. -/
theorem missing_table_404_precedes_validation_app :
    dbNoTables.find "t" = none ∧
    ((add_documents dbNoTables "t" ⟨[]⟩).result =
        HTTPResult.error 404 "Table t not found" ∧
      (delete_documents semNone dbNoTables "t" ⟨""⟩).result =
        HTTPResult.error 404 "Table t not found") :=
  ⟨rfl, missing_table_404_precedes_validation semNone dbNoTables "t" ⟨[]⟩ ⟨""⟩ rfl⟩

/-- Claim C4, counterexample: an add-documents request with an empty
document list naming a missing table is answered 404, not 400 as the claim
requires for every empty-list request. -/
theorem add_empty_missing_table_404_not_400 :
    (add_documents dbNoTables "t" ⟨[]⟩).result =
      HTTPResult.error 404 "Table t not found" ∧
    (add_documents dbNoTables "t" ⟨[]⟩).result.errStatus ≠ some 400 :=
  ⟨rfl, by decide⟩

/-- Claim C4 as amended: a create-table request with an empty document list
always fails 400 and issues no engine call at all; an add-documents request
with an empty document list fails 400 when the named table exists and 404
when it does not, and in either case only the table lookup reaches the
engine — the empty batch is never passed to the engine's create/add call. -/
theorem empty_batch_never_reaches_engine
    (db : DB) (name : String) (cbody : TableCreateRequest)
    (abody : AddDocumentsRequest)
    (hc : cbody.data = []) (ha : abody.data = []) :
    (create_table db name cbody).result =
      HTTPResult.error 400 "Data array must not be empty" ∧
    (create_table db name cbody).calls = [] ∧
    (∀ t, db.find name = some t →
      (add_documents db name abody).result =
        HTTPResult.error 400 "Data array must not be empty") ∧
    (db.find name = none →
      (add_documents db name abody).result =
        HTTPResult.error 404 ("Table " ++ name ++ " not found")) ∧
    (add_documents db name abody).calls = [EngineCall.openTable name] := by
  refine ⟨?_, ?_, ?_, ?_, ?_⟩
  · simp [create_table, hc]
  · simp [create_table, hc]
  · intro t ht
    simp [add_documents, getTable_found ht, ha]
  · intro hn
    simp [add_documents, getTable_missing hn]
  · cases hfind : db.find name with
    | none => simp [add_documents, getTable_missing hfind]
    | some t => simp [add_documents, getTable_found hfind, ha]

/-- Witness for the amended C4 on a concrete store. -/
theorem empty_batch_never_reaches_engine_app :
    (TableCreateRequest.mk []).data = [] ∧ (AddDocumentsRequest.mk []).data = [] ∧
    ((create_table dbOneRow "t" ⟨[]⟩).result =
        HTTPResult.error 400 "Data array must not be empty" ∧
      (create_table dbOneRow "t" ⟨[]⟩).calls = [] ∧
      (∀ t, dbOneRow.find "t" = some t →
        (add_documents dbOneRow "t" ⟨[]⟩).result =
          HTTPResult.error 400 "Data array must not be empty") ∧
      (dbOneRow.find "t" = none →
        (add_documents dbOneRow "t" ⟨[]⟩).result =
          HTTPResult.error 404 ("Table " ++ "t" ++ " not found")) ∧
      (add_documents dbOneRow "t" ⟨[]⟩).calls = [EngineCall.openTable "t"]) :=
  ⟨rfl, rfl, empty_batch_never_reaches_engine dbOneRow "t" ⟨[]⟩ ⟨[]⟩ rfl rfl⟩

/-- Claim C3, counterexample: a storage-engine failure during drop that the
core cannot classify (here "disk full", on an existing table) is reported as
404 with a generic not-found detail, not wrapped as Internal 500 with the
engine's message as the claim requires. -/
theorem drop_engine_fault_mapped_to_404_not_500 :
    (drop_table dbOneRow "t" (some "disk full")).result =
      HTTPResult.error 404 "Table t not found" ∧
    (drop_table dbOneRow "t" (some "disk full")).result.errStatus ≠ some 500 :=
  ⟨rfl, by decide⟩

/-- Claim C3 as amended: the drop-table handler maps every engine failure —
the table being absent as well as any unclassifiable storage-engine fault —
to NotFound 404 with a generic message (the engine's message is not passed
through, and no Internal 500 is produced); it succeeds exactly when the
engine drop succeeds. -/
theorem drop_table_all_failures_404
    (db : DB) (name : String) (fault : Option String) :
    (db.find name = none →
      (drop_table db name fault).result =
        HTTPResult.error 404 ("Table " ++ name ++ " not found")) ∧
    (∀ m, fault = some m →
      (drop_table db name fault).result =
        HTTPResult.error 404 ("Table " ++ name ++ " not found")) ∧
    (fault = none → ∀ t, db.find name = some t →
      (drop_table db name fault).result = HTTPResult.ok ⟨name⟩) := by
  refine ⟨?_, ?_, ?_⟩
  · intro h
    cases fault with
    | some m => simp [drop_table, engineDropTable]
    | none => simp [drop_table, engineDropTable, h]
  · intro m hm
    subst hm
    simp [drop_table, engineDropTable]
  · intro hf t ht
    subst hf
    simp [drop_table, engineDropTable, ht]

/-- Witness for the amended C3: a faulted drop on an existing table gets
404; a clean drop on the same table succeeds. -/
theorem drop_table_all_failures_404_app :
    ((drop_table dbOneRow "t" (some "disk full")).result =
        HTTPResult.error 404 ("Table " ++ "t" ++ " not found")) ∧
    ((drop_table dbOneRow "t" none).result = HTTPResult.ok ⟨"t"⟩) :=
  ⟨(drop_table_all_failures_404 dbOneRow "t" (some "disk full")).2.1 "disk full" rfl,
    (drop_table_all_failures_404 dbOneRow "t" none).2.2 rfl
      ⟨[[("text", Value.pyStr "hello")]]⟩ rfl⟩

theorem find?_map_set (l : List (String × Table)) (name : String) (t' : Table)
    (h : (l.find? (fun p => p.1 == name)).isSome) :
    ((l.map (fun p => if p.1 == name then (p.1, t') else p)).find?
        (fun p => p.1 == name)).map (fun p => p.2) = some t' := by
  induction l with
  | nil => simp [List.find?] at h
  | cons p rest ih =>
    cases hp : (p.1 == name) with
    | true => simp [List.find?, hp]
    | false =>
      simp only [List.find?, hp] at h
      simpa [List.find?, hp] using ih h

theorem DB.find_set_self {db : DB} {name : String} {t : Table} (t' : Table)
    (h : db.find name = some t) : (db.set name t').find name = some t' := by
  have hsome : (db.tables.find? (fun p => p.1 == name)).isSome := by
    simp only [DB.find] at h
    cases hf : db.tables.find? (fun p => p.1 == name) with
    | none => rw [hf] at h; simp at h
    | some p => simp [hf]
  simpa [DB.find, DB.set] using find?_map_set db.tables name t' hsome

/-- Claim C5: `delete_documents` on an existing table rejects an empty
filter with 400; with a non-empty filter that matches zero rows (per the
engine's predicate semantics `sem`) it succeeds with `{deleted: true}` and
the table's row count is unchanged.  (A request with the filter field absent
never reaches the handler: the field is declared required, so the transport
framework — external to the core — rejects the body before dispatch; the
handler's own falsy-check would likewise reject it.) -/
theorem delete_documents_empty_filter_and_no_match
    (sem : String → Document → Bool) (db : DB) (name : String) (t : Table)
    (f : String) (h : db.find name = some t) :
    ((delete_documents sem db name ⟨""⟩).result =
      HTTPResult.error 400 "Filter expression is required") ∧
    (f ≠ "" → (∀ d ∈ t.rows, sem f d = false) →
      (delete_documents sem db name ⟨f⟩).result = HTTPResult.ok ⟨true⟩ ∧
      ((delete_documents sem db name ⟨f⟩).db).find name = some t ∧
      (count_rows (delete_documents sem db name ⟨f⟩).db name).result =
        HTTPResult.ok t.rows.length) := by
  constructor
  · simp [delete_documents, getTable_found h]
  · intro hf hnone
    have hfilter : t.rows.filter (fun d => !(sem f d)) = t.rows := by
      rw [List.filter_eq_self]
      intro d hd
      simp [hnone d hd]
    have hres : (delete_documents sem db name ⟨f⟩).db =
        db.set name ⟨t.rows⟩ := by
      simp [delete_documents, getTable_found h, hf, hfilter]
    have hfind : (db.set name ⟨t.rows⟩).find name = some ⟨t.rows⟩ :=
      DB.find_set_self ⟨t.rows⟩ h
    refine ⟨by simp [delete_documents, getTable_found h, hf], ?_, ?_⟩
    · rw [hres]; exact hfind
    · rw [hres]
      simp [count_rows, getTable_found hfind]

/-- Witness for C5 on a concrete one-row table and a filter matching no
row. -/
theorem delete_documents_empty_filter_and_no_match_app :
    dbOneRow.find "t" = some ⟨[[("text", Value.pyStr "hello")]]⟩ ∧
    (((delete_documents semNone dbOneRow "t" ⟨""⟩).result =
        HTTPResult.error 400 "Filter expression is required") ∧
      ("x = 1" ≠ "" →
        (∀ d ∈ (Table.mk [[("text", Value.pyStr "hello")]]).rows,
          semNone "x = 1" d = false) →
        (delete_documents semNone dbOneRow "t" ⟨"x = 1"⟩).result =
          HTTPResult.ok ⟨true⟩ ∧
        ((delete_documents semNone dbOneRow "t" ⟨"x = 1"⟩).db).find "t" =
          some ⟨[[("text", Value.pyStr "hello")]]⟩ ∧
        (count_rows (delete_documents semNone dbOneRow "t" ⟨"x = 1"⟩).db "t").result =
          HTTPResult.ok (Table.mk [[("text", Value.pyStr "hello")]]).rows.length)) :=
  ⟨rfl, delete_documents_empty_filter_and_no_match semNone dbOneRow "t"
    ⟨[[("text", Value.pyStr "hello")]]⟩ "x = 1" rfl⟩

/-- Claim C9: a result-count limit is always applied — an omitted limit
defaults to 10 for a vector search and 100 for a plain query, and on every
non-short-circuited execution (filtered or not) the query handed to the
engine carries `limit = body.limit`. -/
theorem limit_always_applied :
    (∀ (v : List Rat) (dt f : Option String),
      (mkSearchRequest ⟨v, none, dt, f⟩).limit = 10) ∧
    (∀ f : Option String, (mkQueryRequest ⟨f, none⟩).limit = 100) ∧
    (∀ body : SearchRequest, (buildSearchQuery body).queryLimit = some body.limit) ∧
    (∀ body : QueryRequest, (buildScanQuery body).queryLimit = some body.limit) ∧
    (∀ (sem : String → Document → Bool) (db : DB) (name : String) (t : Table)
      (body : SearchRequest), db.find name = some t → t.rows ≠ [] →
      EngineCall.runQuery name (buildSearchQuery body) ∈
        (vector_search sem db name body).calls) ∧
    (∀ (sem : String → Document → Bool) (db : DB) (name : String) (t : Table)
      (body : QueryRequest), db.find name = some t → t.rows ≠ [] →
      EngineCall.runQuery name (buildScanQuery body) ∈
        (query_table sem db name body).calls) := by
  refine ⟨fun v dt f => rfl, fun f => rfl, fun body => rfl, ?_, ?_, ?_⟩
  · intro body
    unfold buildScanQuery
    cases hf : optStrTruthy body.filter <;> simp [hf]
  · intro sem db name t body h hrows
    have hlen : ¬ t.rows.length = 0 := by simpa using hrows
    simp [vector_search, getTable_found h, hlen]
  · intro sem db name t body h hrows
    have hlen : ¬ t.rows.length = 0 := by simpa using hrows
    simp [query_table, getTable_found h, hlen]

/-- Witness for C9 at a concrete one-row table and concrete bodies. -/
theorem limit_always_applied_app :
    dbOneRow.find "t" = some ⟨[[("text", Value.pyStr "hello")]]⟩ ∧
    (Table.mk [[("text", Value.pyStr "hello")]]).rows ≠ [] ∧
    (mkSearchRequest ⟨[1], none, none, none⟩).limit = 10 ∧
    (mkQueryRequest ⟨none, none⟩).limit = 100 ∧
    EngineCall.runQuery "t" (buildSearchQuery ⟨[1], 10, "cosine", none⟩) ∈
      (vector_search semNone dbOneRow "t" ⟨[1], 10, "cosine", none⟩).calls ∧
    EngineCall.runQuery "t" (buildScanQuery ⟨none, 100⟩) ∈
      (query_table semNone dbOneRow "t" ⟨none, 100⟩).calls :=
  ⟨rfl, by simp,
    limit_always_applied.1 [1] none none,
    limit_always_applied.2.1 none,
    limit_always_applied.2.2.2.2.1 semNone dbOneRow "t"
      ⟨[[("text", Value.pyStr "hello")]]⟩ ⟨[1], 10, "cosine", none⟩ rfl (by simp),
    limit_always_applied.2.2.2.2.2 semNone dbOneRow "t"
      ⟨[[("text", Value.pyStr "hello")]]⟩ ⟨none, 100⟩ rfl (by simp)⟩

theorem leadsWith_refl (l : List Char) : leadsWith l l = true := by
  induction l with
  | nil => rfl
  | cons a as ih => simp [leadsWith, ih]

theorem hasSub_self (n : List Char) : hasSub n n = true := by
  cases n with
  | nil => rfl
  | cons c t => simp [hasSub, leadsWith_refl]

theorem hasSub_append_left (n y : List Char) (h : hasSub n y = true) :
    ∀ x : List Char, hasSub n (x ++ y) = true := by
  intro x
  induction x with
  | nil => simpa using h
  | cons a x' ih => simp [hasSub, ih]

theorem strToList_append (a b : String) : (a ++ b).toList = a.toList ++ b.toList := by
  cases a
  cases b
  rfl

theorem alreadyExists_detected (name : String) :
    lowerContains "already exists" ("Table " ++ name ++ " already exists") = true := by
  unfold lowerContains
  rw [strToList_append, strToList_append, List.map_append, List.map_append]
  have h2 : " already exists".toList.map Char.toLower =
      ' ' :: "already exists".toList := by decide
  rw [h2]
  have h3 : hasSub "already exists".toList (' ' :: "already exists".toList) = true := by
    decide
  exact hasSub_append_left _ _ h3 _

/-- Claim C2: creating a table whose name already exists fails with 409
Conflict, for every non-empty payload — the engine's collision error is
classified by its message and never surfaces as any other status. -/
theorem create_existing_table_conflict
    (db : DB) (name : String) (t : Table) (data : List Document)
    (h : db.find name = some t) (hdata : data ≠ []) :
    (create_table db name ⟨data⟩).result =
      HTTPResult.error 409 ("Table " ++ name ++ " already exists") := by
  have hne : (TableCreateRequest.mk data).data.isEmpty = false := by
    cases data with
    | nil => exact absurd rfl hdata
    | cons a l => rfl
  simp [create_table, hne, engineCreateTable, h, alreadyExists_detected]

/-- Witness for C2: creating the existing table `t` with a one-document
payload is answered 409. -/
theorem create_existing_table_conflict_app :
    dbOneRow.find "t" = some ⟨[[("text", Value.pyStr "hello")]]⟩ ∧
    ([[("a", Value.pyInt 1)]] : List Document) ≠ [] ∧
    (create_table dbOneRow "t" ⟨[[("a", Value.pyInt 1)]]⟩).result =
      HTTPResult.error 409 ("Table " ++ "t" ++ " already exists") :=
  ⟨rfl, by simp,
    create_existing_table_conflict dbOneRow "t" ⟨[[("text", Value.pyStr "hello")]]⟩
      [[("a", Value.pyInt 1)]] rfl (by simp)⟩

theorem toSerializableList_id (xs : List Value)
    (h : ∀ v ∈ xs, toSerializable v = v) : toSerializableList xs = xs := by
  induction xs with
  | nil => rfl
  | cons v vs ih =>
    have h1 := h v (List.mem_cons_self v vs)
    have h2 : toSerializableList vs = vs :=
      ih (fun w hw => h w (List.mem_cons_of_mem v hw))
    simp [toSerializableList, h1, h2]

theorem toSerializableKVs_id (kvs : List (String × Value))
    (h : ∀ kv ∈ kvs, toSerializable kv.2 = kv.2) : toSerializableKVs kvs = kvs := by
  induction kvs with
  | nil => rfl
  | cons kv rest ih =>
    obtain ⟨k, v⟩ := kv
    have h1 := h (k, v) (List.mem_cons_self (k, v) rest)
    have h2 : toSerializableKVs rest = rest :=
      ih (fun w hw => h w (List.mem_cons_of_mem (k, v) hw))
    simp only at h1
    simp [toSerializableKVs, h1, h2]

/-- Claim C6: the normalizer is the identity on already-canonical values
(plain numbers, strings, booleans, and lists/dicts of canonical values),
and its fallback arm returns any value of an unknown shape unchanged. -/
theorem normalize_canonical_id :
    (∀ v, Canonical v → toSerializable v = v) ∧
    (∀ s, toSerializable (Value.other s) = Value.other s) := by
  constructor
  · intro v h
    induction h with
    | int i => rfl
    | float q => rfl
    | bool b => rfl
    | str s => rfl
    | list xs hmem ih => simp [toSerializable, toSerializableList_id xs ih]
    | dict kvs hmem ih => simp [toSerializable, toSerializableKVs_id kvs ih]
  · intro s
    rfl

/-- Witness for C6 on a concrete canonical value. -/
theorem normalize_canonical_id_app :
    Canonical (Value.pyList [Value.pyInt 3, Value.pyStr "a"]) ∧
    toSerializable (Value.pyList [Value.pyInt 3, Value.pyStr "a"]) =
      Value.pyList [Value.pyInt 3, Value.pyStr "a"] := by
  have hc : Canonical (Value.pyList [Value.pyInt 3, Value.pyStr "a"]) := by
    refine Canonical.list _ ?_
    intro v hv
    simp only [List.mem_cons, List.not_mem_nil, or_false] at hv
    rcases hv with rfl | rfl
    · exact Canonical.int 3
    · exact Canonical.str "a"
  exact ⟨hc, normalize_canonical_id.1 _ hc⟩

theorem tolistList_eq_map (xs : List NDTree) :
    NDTree.tolistList xs = xs.map NDTree.tolist := by
  induction xs with
  | nil => rfl
  | cons t ts ih => simp [NDTree.tolistList, ih]

/-- Claim C7: normalizing a fixed-length numeric array yields an ordered
sequence of the same length and element order as the source — the i-th
output element is the converted i-th source element — recursing into
multi-dimensional arrays, with numeric leaves becoming plain numbers. -/
theorem ndarray_normalizes_to_ordered_sequence :
    (∀ xs : List NDTree, toSerializable (Value.npArray (NDTree.arr xs)) =
      Value.pyList (xs.map NDTree.tolist)) ∧
    (∀ xs : List NDTree, (xs.map NDTree.tolist).length = xs.length) ∧
    (∀ (xs : List NDTree) (i : Nat),
      (xs.map NDTree.tolist)[i]? = (xs[i]?).map NDTree.tolist) ∧
    (∀ ys : List NDTree, NDTree.tolist (NDTree.arr ys) =
      Value.pyList (ys.map NDTree.tolist)) ∧
    (∀ n : PyNum, NDTree.tolist (NDTree.num n) = n.toValue) := by
  refine ⟨?_, ?_, ?_, ?_, ?_⟩
  · intro xs
    simp [toSerializable, NDTree.tolist, tolistList_eq_map]
  · intro xs
    simp
  · intro xs i
    simp
  · intro ys
    simp [NDTree.tolist, tolistList_eq_map]
  · intro n
    cases n <;> rfl

theorem replacement_mem_of_strict_none (bs : List Nat)
    (h : decodeUtf8Strict bs = none) : replacementChar ∈ decodeUtf8Replace bs := by
  induction bs using decodeUtf8Replace.induct with
  | case1 => simp [decodeUtf8Strict] at h
  | case2 b rest cp k heq ih =>
    rw [decodeUtf8Strict, heq] at h
    simp only [Option.map_eq_none'] at h
    rw [decodeUtf8Replace, heq]
    exact List.mem_cons_of_mem _ (ih h)
  | case3 b rest heq ih =>
    rw [decodeUtf8Replace, heq]
    exact List.mem_cons_self _ _

/-- Claim C8: the normalizer is a total deterministic function on byte
buffers — every byte list, valid UTF-8 or not, is decoded to text, and
whenever strict decoding would fail the lossy decoding inserts the U+FFFD
replacement character instead of failing. -/
theorem normalize_bytes_total_lossy :
    (∀ bs : List Nat, toSerializable (Value.bytes bs) =
      Value.pyStr (String.mk (decodeUtf8Replace bs))) ∧
    (∀ bs : List Nat, decodeUtf8Strict bs = none →
      replacementChar ∈ decodeUtf8Replace bs) :=
  ⟨fun bs => by simp [toSerializable], replacement_mem_of_strict_none⟩

/-- Witness for C8 on the invalid byte 0xFF. -/
theorem normalize_bytes_total_lossy_app :
    decodeUtf8Strict [0xFF] = none ∧
    toSerializable (Value.bytes [0xFF]) =
      Value.pyStr (String.mk (decodeUtf8Replace [0xFF])) ∧
    replacementChar ∈ decodeUtf8Replace [0xFF] := by
  have hnone : decodeUtf8Strict [0xFF] = none := by
    simp [decodeUtf8Strict, utf8DecodeOne]
  exact ⟨hnone, normalize_bytes_total_lossy.1 [0xFF],
    normalize_bytes_total_lossy.2 [0xFF] hnone⟩

end LanceDBServer
